import Mathlib

/-!
Shallow embedding of `src/main.py` (mud2monarch/v2-py): the `V2State` /
`V2Pool` classes and the `Event` hierarchy, together with the pieces of
Python / polars semantics their methods rely on.

Modelling conventions:
* Python `int` is `Int`; `datetime` values are points on an integer
  timeline (`Int`), with `datetime.min` as an unspecified point `0`
  (nothing in the code compares times, so only equality of times matters);
* Python `str.lower()` is `String.toLower` (Ethereum addresses and tx
  hashes are ASCII, where the two agree);
* true division `a / b` on integers is exact division in `ℚ` and raises
  `ZeroDivisionError` when `b = 0` (Python returns the nearest float to
  this ratio; the claims are about the ratio itself);
* a raised exception is an `Except.error`; methods that mutate `self`
  return the object (possibly partially mutated) together with the
  outcome, because in Python an escaping exception leaves earlier field
  assignments in place.
-/

set_option autoImplicit false

namespace V2Py

/-- Python runtime values as they appear in the dataframe rows and
attribute dictionaries of `main.py`. -/
inductive PyVal where
  | str : String → PyVal
  | int : Int → PyVal
  | time : Int → PyVal
  | none : PyVal
  deriving DecidableEq, Repr

/-- The exception kinds relevant to `main.py`: the ones Python / polars
actually raise (`TypeError`, `ZeroDivisionError`, `AttributeError`), plus
the error kinds the specification names (`InvalidStateError`,
`OutOfOrderError`) so that statements about them can be written; the code
itself never defines or raises the latter two. -/
inductive PyError where
  | typeError
  | zeroDivisionError
  | attributeError
  | valueError
  | shapeError
  | invalidStateError
  | outOfOrderError
  deriving DecidableEq, Repr

/-- `NO_UPDATE_TX` (main.py line 6). -/
def NO_UPDATE_TX : String := "No Update Transaction Provided"

/-- `NO_UPDATE_TIME = datetime.min` (main.py line 7), an unspecified
fixed point on the integer timeline. -/
def NO_UPDATE_TIME : Int := 0

/-- A polars `DataFrame`, reduced to what `main.py` observes of it: an
ordered list of column names and a list of rows. (The dtypes declared in
`V2Pool.__init__` — Decimal, Decimal, String, Datetime — play no role in
any claim and are recorded only in comments.) -/
structure DataFrame where
  schema : List String
  rows : List (List PyVal)
  deriving DecidableEq, Repr

/-- `V2State` after construction: `__new__` (main.py lines 40-69) sets
exactly these ten attributes, in this order. -/
structure V2State where
  token0_addr : String
  token0_decimals : Int
  token1_addr : String
  token1_decimals : Int
  pool_addr : String
  k_invar : Int
  reserve0 : Int
  reserve1 : Int
  update_tx : String
  update_time : Int
  deriving DecidableEq, Repr

namespace V2State

/-- `V2State.__new__` (main.py lines 40-69): lowercases the four
address-like string fields and stores every numeric field unchanged.
There is no validation of any kind, so construction always succeeds.
(Each `obj.x = ...` goes through `V2State.__setattr__`, whose
`hasattr` guard is `False` for a fresh object, so each assignment lands.) -/
def new (token0_addr : String) (token0_decimals : Int)
    (token1_addr : String) (token1_decimals : Int)
    (pool_addr : String) (k_invar : Int)
    (reserve0 : Int) (reserve1 : Int)
    (update_tx : String) (update_time : Int) : V2State :=
  { token0_addr := token0_addr.toLower
    token0_decimals := token0_decimals
    token1_addr := token1_addr.toLower
    token1_decimals := token1_decimals
    pool_addr := pool_addr.toLower
    k_invar := k_invar
    reserve0 := reserve0
    reserve1 := reserve1
    update_tx := update_tx.toLower
    update_time := update_time }

/-- The instance dictionary of a constructed `V2State`: `__new__` sets
exactly these ten attribute names (in this order) and nothing else ever
adds to it. -/
def attrs (s : V2State) : List (String × PyVal) :=
  [("token0_addr", .str s.token0_addr),
   ("token0_decimals", .int s.token0_decimals),
   ("token1_addr", .str s.token1_addr),
   ("token1_decimals", .int s.token1_decimals),
   ("pool_addr", .str s.pool_addr),
   ("k_invar", .int s.k_invar),
   ("reserve0", .int s.reserve0),
   ("reserve1", .int s.reserve1),
   ("update_tx", .str s.update_tx),
   ("update_time", .time s.update_time)]

/-- The ten attribute names set on every constructed `V2State`. -/
def fieldNames : List String :=
  ["token0_addr", "token0_decimals", "token1_addr", "token1_decimals",
   "pool_addr", "k_invar", "reserve0", "reserve1", "update_tx", "update_time"]

/-- Python `hasattr(obj, name)` for an object whose attribute dictionary
is `d` (none of the names involved shadow class-level methods). -/
def py_hasattr (d : List (String × PyVal)) (name : String) : Bool :=
  d.any (fun kv => kv.1 == name)

/-- `V2State.__setattr__` (main.py lines 71-76) on a constructed state:
raises `AttributeError` if the attribute already exists (leaving the
object untouched — `super().__setattr__` is never reached), otherwise
performs the plain assignment, extending the instance dictionary.
Returns the object's attribute dictionary after the call together with
the outcome. -/
def setattr_ (s : V2State) (name : String) (v : PyVal) :
    List (String × PyVal) × Except PyError Unit :=
  if py_hasattr s.attrs name then
    (s.attrs, .error .attributeError)
  else
    (s.attrs ++ [(name, v)], .ok ())

/-- `V2State.__eq__` (main.py lines 83-98), in the case where `other` is
a `V2State` (the `isinstance` guard returns `False` otherwise): compares
all ten fields, in the source's order (`update_time` before `update_tx`). -/
def eq (s other : V2State) : Bool :=
  s.token0_addr == other.token0_addr &&
  s.token0_decimals == other.token0_decimals &&
  s.token1_addr == other.token1_addr &&
  s.token1_decimals == other.token1_decimals &&
  s.pool_addr == other.pool_addr &&
  s.k_invar == other.k_invar &&
  s.reserve0 == other.reserve0 &&
  s.reserve1 == other.reserve1 &&
  s.update_time == other.update_time &&
  s.update_tx == other.update_tx

/-- `V2State.get_price` (main.py lines 100-103): `reserve1 / reserve0`,
Python true division — `ZeroDivisionError` when `reserve0 == 0`, the
exact ratio otherwise. -/
def get_price (s : V2State) : Except PyError ℚ :=
  if s.reserve0 = 0 then .error .zeroDivisionError
  else .ok ((s.reserve1 : ℚ) / (s.reserve0 : ℚ))

end V2State

/-- The empty frame built in `V2Pool.__init__` (main.py lines 149-154):
`pl.DataFrame(schema={'reserve0': pl.Decimal, 'reserve1': pl.Decimal,
'update_tx': pl.String, 'update_time': pl.Datetime})` — four columns,
these names, no rows. -/
def initPoolDf : DataFrame :=
  { schema := ["reserve0", "reserve1", "update_tx", "update_time"], rows := [] }

/-- `V2Pool` after `__init__` (main.py lines 136-155): the constructor
sets `pool_addr` (twice, lines 142 and 146), `token0_addr`,
`token1_addr`, `token1_decimals` and `k_invar` — all to `None` — plus
`_df` and `last_state`. It never assigns `token0_decimals`; the class
body's `token0_decimals: int` (line 127) is an annotation only and
creates no attribute, so that name is absent from a fresh instance. -/
structure V2Pool where
  pool_addr : PyVal
  token0_addr : PyVal
  token1_addr : PyVal
  token1_decimals : PyVal
  k_invar : PyVal
  _df : DataFrame
  last_state : DataFrame
  deriving DecidableEq, Repr

namespace V2Pool

/-- `V2Pool.__init__` (main.py lines 136-155): every identity attribute
defaults to `None`; `_df` is the empty four-column frame and
`last_state = self._df.clone()` is an equal copy of it. -/
def init : V2Pool :=
  { pool_addr := .none
    token0_addr := .none
    token1_addr := .none
    token1_decimals := .none
    k_invar := .none
    _df := initPoolDf
    last_state := initPoolDf }

/-- The attribute names `__init__` leaves set on a fresh `V2Pool`
instance, in assignment order (the duplicated `pool_addr` assignment
re-binds the same name). -/
def initAttrNames : List String :=
  ["pool_addr", "token0_addr", "token1_addr", "token1_decimals",
   "k_invar", "_df", "last_state"]

/-- Python attribute lookup on a fresh `V2Pool()`: names assigned by
`__init__` resolve; any other data-attribute name (in particular
`token0_decimals`, which only ever appears as a class-body annotation)
raises `AttributeError`. -/
def getattrFresh (name : String) : Except PyError Unit :=
  if name ∈ initAttrNames then .ok () else .error .attributeError

/-- `V2Pool.get_dataframe` (main.py lines 164-168): plain return of the
backing frame. -/
def get_dataframe (p : V2Pool) : DataFrame :=
  p._df

end V2Pool

/-- The one-row frame `pl.DataFrame(data)` built inside
`V2Pool.add_state` (main.py lines 177-184). Note the dictionary keys:
`"reserve0"`, `"reserve_1"` (with an underscore, unlike the `__init__`
schema's `"reserve1"`), `"update_tx"`, `"update_time"`; `k_invar` is not
included. -/
def addStateRow (new_state : V2State) : DataFrame :=
  { schema := ["reserve0", "reserve_1", "update_tx", "update_time"]
    rows := [[.int new_state.reserve0, .int new_state.reserve1,
              .str new_state.update_tx, .time new_state.update_time]] }

/-- polars `concat` has signature `concat(items, *, how=..., rechunk=...,
parallel=...)`: everything after `items` is keyword-only. The call
`pl.concat(self._df, self.last_state)` in `add_state` (main.py line 186)
passes two positional arguments, so Python raises `TypeError` at the
call, before any frame is touched. -/
def pl_concat_twoPositional (_items _extra : DataFrame) : Except PyError DataFrame :=
  .error .typeError

/-- polars vertical `concat` on a properly passed list of frames, for
reference: it requires all frames to share the same column names, and
stacks their rows. Even the charitable reading
`pl.concat([self._df, self.last_state])` would fail in `add_state`,
because the schemas `reserve1` vs `reserve_1` differ. -/
def pl_concat_vertical (items : List DataFrame) : Except PyError DataFrame :=
  match items with
  | [] => .error .valueError
  | d :: ds =>
    if ds.all (fun e => e.schema == d.schema) then
      .ok { schema := d.schema, rows := (d :: ds).flatMap (fun e => e.rows) }
    else
      .error .shapeError

namespace V2Pool

/-- `V2Pool.add_state` (main.py lines 170-188), executed in Python's
order: (1) build the `data` dict; (2) `self.last_state =
pl.DataFrame(data)` — this mutation lands; (3) `self._df =
pl.concat(self._df, self.last_state)` — raises `TypeError` (two
positional arguments), so the assignment to `_df` and the
`return new_state` are never reached and the exception escapes with
`last_state` already overwritten. The result is the object as control
leaves the method, paired with the outcome. -/
def add_state (p : V2Pool) (new_state : V2State) : V2Pool × Except PyError V2State :=
  let p1 : V2Pool := { p with last_state := addStateRow new_state }
  match pl_concat_twoPositional p1._df p1.last_state with
  | .error e => (p1, .error e)
  | .ok d => ({ p1 with _df := d }, .ok new_state)

end V2Pool

/-- `MintEvent` (main.py lines 196-225). -/
structure MintEvent where
  sender : String
  amount0 : Int
  amount1 : Int
  deriving DecidableEq, Repr

/-- `MintEvent.__init__` (main.py lines 215-225): lowercases `sender`,
stores the amounts unchanged. -/
def MintEvent.init (sender : String) (amount0 : Int) (amount1 : Int) : MintEvent :=
  { sender := sender.toLower, amount0 := amount0, amount1 := amount1 }

/-- A `V2Pool` whose backing frame holds one row at `update_time = 5`
(obtainable in Python by assigning `pool._df` and `pool.last_state`
directly: `V2Pool` attributes carry no immutability guard). Used to
exercise `add_state` against a non-empty history. -/
def poolAtTime5 : V2Pool :=
  { V2Pool.init with
      _df := { schema := ["reserve0", "reserve1", "update_tx", "update_time"]
               rows := [[.int 100, .int 200, .str "0xa1", .time 5]] } }

/-! ## Claim theorems -/

/-- C1: the append/latest round-trip fails in the code as written: on a
fresh `V2Pool`, `add_state` with a concrete state raises `TypeError`
(from `pl.concat` called with two positional arguments), appends nothing
to the backing frame, and leaves `last_state` holding a one-row
`DataFrame` (with the misspelled column `reserve_1`) rather than
anything structurally equal to the appended `V2State`. -/
theorem add_state_breaks_append_latest_roundtrip :
    (V2Pool.init.add_state
        (V2State.new "0xAA" 18 "0xBB" 6 "0xPP" 20000 100 200 "0xTX" 1)).2
      = Except.error PyError.typeError ∧
    (V2Pool.init.add_state
        (V2State.new "0xAA" 18 "0xBB" 6 "0xPP" 20000 100 200 "0xTX" 1)).1._df.rows
      = [] ∧
    (V2Pool.init.add_state
        (V2State.new "0xAA" 18 "0xBB" 6 "0xPP" 20000 100 200 "0xTX" 1)).1.last_state
      = addStateRow (V2State.new "0xAA" 18 "0xBB" 6 "0xPP" 20000 100 200 "0xTX" 1) :=
  ⟨rfl, rfl, rfl⟩

/-- C2 counterexample: constructing a `V2State` with `reserve0 = -1`
succeeds and produces a state carrying the negative reserve — no
`InvalidStateError` is raised (none exists in the code). -/
theorem negative_reserve_state_is_constructed :
    (V2State.new "0xAA" 18 "0xBB" 6 "0xPP" 0 (-1) 5 "0xTX" 1).reserve0 = -1 :=
  rfl

/-- C2 amended: `V2State.__new__` performs no validation: even when a
reserve argument is negative, construction succeeds and stores both
reserves unchanged. -/
theorem construction_stores_negative_reserves (t0 : String) (d0 : Int)
    (t1 : String) (d1 : Int) (pa : String) (k r0 r1 : Int)
    (tx : String) (tm : Int) (_h : r0 < 0 ∨ r1 < 0) :
    (V2State.new t0 d0 t1 d1 pa k r0 r1 tx tm).reserve0 = r0 ∧
    (V2State.new t0 d0 t1 d1 pa k r0 r1 tx tm).reserve1 = r1 :=
  ⟨rfl, rfl⟩

/-- C2 witness: the amended statement at a concrete negative input. -/
theorem construction_stores_negative_reserves_witness :
    (V2State.new "0xAA" 18 "0xBB" 6 "0xPP" 0 (-1) 5 "0xTX" 1).reserve0 = -1 ∧
    (V2State.new "0xAA" 18 "0xBB" 6 "0xPP" 0 (-1) 5 "0xTX" 1).reserve1 = 5 :=
  construction_stores_negative_reserves "0xAA" 18 "0xBB" 6 "0xPP" 0 (-1) 5 "0xTX" 1
    (Or.inl (by decide))

/-- C3 counterexample: with a history whose last entry is at time 5,
appending a state at time 3 does not raise `OutOfOrderError` (it raises
`TypeError`), and appending a state at time 7 does not succeed either
(same `TypeError`): `add_state` never inspects `update_time`. -/
theorem out_of_order_append_counterexample :
    (poolAtTime5.add_state
        (V2State.new "0xAA" 18 "0xBB" 6 "0xPP" 20000 100 200 "0xT3" 3)).2
      ≠ Except.error PyError.outOfOrderError ∧
    (poolAtTime5.add_state
        (V2State.new "0xAA" 18 "0xBB" 6 "0xPP" 20000 100 200 "0xT3" 3)).2
      = Except.error PyError.typeError ∧
    (poolAtTime5.add_state
        (V2State.new "0xAA" 18 "0xBB" 6 "0xPP" 24000 120 200 "0xT7" 7)).2
      = Except.error PyError.typeError := by
  refine ⟨?_, rfl, rfl⟩
  simp [V2Pool.add_state, pl_concat_twoPositional]

/-- C3 amended: `add_state` performs no `update_time` ordering check at
all: for every pool (non-empty history included) and every state, the
call raises `TypeError` from `pl.concat`, leaving `_df` unchanged and
overwriting `last_state` with the new one-row frame; no `OutOfOrderError`
is ever raised and no append ever succeeds. -/
theorem add_state_never_checks_time (p : V2Pool) (s : V2State) :
    (p.add_state s).2 = Except.error PyError.typeError ∧
    (p.add_state s).1 = { p with last_state := addStateRow s } :=
  ⟨rfl, rfl⟩

/-- C4 counterexample: the backing frame of a fresh `V2Pool` does not
have the columns `reserve0, reserve1, kInvariant, updateTx, updateTime`
claimed from the spec — there is no `kInvariant` column at all. -/
theorem dataframe_columns_counterexample :
    V2Pool.init._df.schema
      ≠ ["reserve0", "reserve1", "kInvariant", "updateTx", "updateTime"] := by
  decide

/-- C4 amended: the constructor schema has exactly the columns
`reserve0, reserve1, update_tx, update_time` (snake_case, no invariant
column); `get_dataframe` returns the backing frame unmodified; the row
`add_state` builds for a state carries that state's `reserve0`,
`reserve1`, `update_tx`, `update_time` — but under the keys `reserve0`,
`reserve_1`, `update_tx`, `update_time` (note `reserve_1`), and it is
never stored: even the charitable list-argument reading of the `concat`
call fails on the schema mismatch. -/
theorem dataframe_columns_actual :
    V2Pool.init._df.schema = ["reserve0", "reserve1", "update_tx", "update_time"] ∧
    (∀ p : V2Pool, p.get_dataframe = p._df) ∧
    (∀ s : V2State,
      (addStateRow s).schema = ["reserve0", "reserve_1", "update_tx", "update_time"] ∧
      (addStateRow s).rows
        = [[.int s.reserve0, .int s.reserve1, .str s.update_tx, .time s.update_time]]) ∧
    (∀ s : V2State,
      pl_concat_vertical [V2Pool.init._df, addStateRow s] = Except.error PyError.shapeError) :=
  ⟨rfl, fun _ => rfl, fun _ => ⟨rfl, rfl⟩, fun _ => rfl⟩

/-- C5: `get_price` returns the exact ratio `reserve1 / reserve0` when
`reserve0 ≠ 0`, and raises the division-by-zero error when
`reserve0 = 0`. -/
theorem get_price_spec (s : V2State) :
    (s.reserve0 ≠ 0 → s.get_price = Except.ok ((s.reserve1 : ℚ) / (s.reserve0 : ℚ))) ∧
    (s.reserve0 = 0 → s.get_price = Except.error PyError.zeroDivisionError) := by
  constructor
  · intro h
    simp [V2State.get_price, h]
  · intro h
    simp [V2State.get_price, h]

/-- C5 witness: reserves `(2, 6)` price to `3`; reserves `(0, 0)` raise
the division-by-zero error. -/
theorem get_price_spec_witness :
    (V2State.new "0xAA" 18 "0xBB" 6 "0xPP" 12 2 6 "0xTX" 1).get_price = Except.ok 3 ∧
    (V2State.new "0xAA" 18 "0xBB" 6 "0xPP" 0 0 0 "0xTX" 1).get_price
      = Except.error PyError.zeroDivisionError := by
  constructor
  · have h := (get_price_spec (V2State.new "0xAA" 18 "0xBB" 6 "0xPP" 12 2 6 "0xTX" 1)).1
      (by decide)
    rw [h]
    norm_num [V2State.new]
  · exact (get_price_spec (V2State.new "0xAA" 18 "0xBB" 6 "0xPP" 0 0 0 "0xTX" 1)).2 rfl

/-- C6: construction lowercases every address-like field
(`token0_addr`, `token1_addr`, `pool_addr`, `update_tx` on `V2State`;
`sender` on `MintEvent`) and stores every numeric field unchanged. -/
theorem construction_lowercases_addresses (t0 : String) (d0 : Int)
    (t1 : String) (d1 : Int) (pa : String) (k r0 r1 : Int)
    (tx : String) (tm : Int) (sender : String) (a0 a1 : Int) :
    (V2State.new t0 d0 t1 d1 pa k r0 r1 tx tm).token0_addr = t0.toLower ∧
    (V2State.new t0 d0 t1 d1 pa k r0 r1 tx tm).token1_addr = t1.toLower ∧
    (V2State.new t0 d0 t1 d1 pa k r0 r1 tx tm).pool_addr = pa.toLower ∧
    (V2State.new t0 d0 t1 d1 pa k r0 r1 tx tm).update_tx = tx.toLower ∧
    (V2State.new t0 d0 t1 d1 pa k r0 r1 tx tm).token0_decimals = d0 ∧
    (V2State.new t0 d0 t1 d1 pa k r0 r1 tx tm).token1_decimals = d1 ∧
    (V2State.new t0 d0 t1 d1 pa k r0 r1 tx tm).k_invar = k ∧
    (V2State.new t0 d0 t1 d1 pa k r0 r1 tx tm).reserve0 = r0 ∧
    (V2State.new t0 d0 t1 d1 pa k r0 r1 tx tm).reserve1 = r1 ∧
    (V2State.new t0 d0 t1 d1 pa k r0 r1 tx tm).update_time = tm ∧
    (MintEvent.init sender a0 a1).sender = sender.toLower ∧
    (MintEvent.init sender a0 a1).amount0 = a0 ∧
    (MintEvent.init sender a0 a1).amount1 = a1 :=
  ⟨rfl, rfl, rfl, rfl, rfl, rfl, rfl, rfl, rfl, rfl, rfl, rfl, rfl⟩

/-- C7: a constructed `V2State` is immutable: assigning any of the ten
attribute names already set on it raises `AttributeError` and leaves the
attribute dictionary (hence every field value) exactly as constructed. -/
theorem setattr_on_set_attribute_raises (s : V2State) (name : String)
    (v : PyVal) (h : name ∈ V2State.fieldNames) :
    s.setattr_ name v = (s.attrs, Except.error PyError.attributeError) := by
  simp only [V2State.fieldNames, List.mem_cons, List.not_mem_nil, or_false] at h
  rcases h with rfl | rfl | rfl | rfl | rfl | rfl | rfl | rfl | rfl | rfl <;> rfl

/-- C7 witness: assigning `reserve0` on a concrete constructed state
raises `AttributeError` and leaves the state's attributes unchanged. -/
theorem setattr_on_set_attribute_raises_witness :
    (V2State.new "0xAA" 18 "0xBB" 6 "0xPP" 12 2 6 "0xTX" 1).setattr_ "reserve0"
        (PyVal.int 99)
      = ((V2State.new "0xAA" 18 "0xBB" 6 "0xPP" 12 2 6 "0xTX" 1).attrs,
         Except.error PyError.attributeError) :=
  setattr_on_set_attribute_raises (V2State.new "0xAA" 18 "0xBB" 6 "0xPP" 12 2 6 "0xTX" 1)
    "reserve0" (PyVal.int 99) (by decide)

/-- C8: `__eq__` between two `V2State` values returns `True` exactly
when all ten fields agree pairwise. -/
theorem v2state_eq_iff_fields_equal (s other : V2State) :
    V2State.eq s other = true ↔
      (s.token0_addr = other.token0_addr ∧
       s.token0_decimals = other.token0_decimals ∧
       s.token1_addr = other.token1_addr ∧
       s.token1_decimals = other.token1_decimals ∧
       s.pool_addr = other.pool_addr ∧
       s.k_invar = other.k_invar ∧
       s.reserve0 = other.reserve0 ∧
       s.reserve1 = other.reserve1 ∧
       s.update_tx = other.update_tx ∧
       s.update_time = other.update_time) := by
  simp only [V2State.eq, Bool.and_eq_true, beq_iff_eq, and_assoc]
  tauto

/-- C9 counterexample: on a fresh pool, `add_state` fails, yet
`last_state` after the failed call differs from `last_state` before it —
the failure is not all-or-nothing. -/
theorem failed_append_mutates_last_state :
    (V2Pool.init.add_state
        (V2State.new "0xCC" 18 "0xDD" 6 "0xQQ" 30000 150 200 "0xTY" 2)).2
      = Except.error PyError.typeError ∧
    (V2Pool.init.add_state
        (V2State.new "0xCC" 18 "0xDD" 6 "0xQQ" 30000 150 200 "0xTY" 2)).1.last_state
      ≠ V2Pool.init.last_state :=
  ⟨rfl, by decide⟩

/-- C9 amended: when `add_state` fails (as it always does, at the
`pl.concat` call), the backing frame `_df` is indeed left unchanged, but
`last_state` has already been overwritten with the new one-row frame: a
partial mutation survives the failure. -/
theorem add_state_failure_partial_mutation (p : V2Pool) (s : V2State)
    (e : PyError) (_h : (p.add_state s).2 = Except.error e) :
    (p.add_state s).1._df = p._df ∧
    (p.add_state s).1.last_state = addStateRow s :=
  ⟨rfl, rfl⟩

/-- C9 witness: the amended statement at a concrete failing call. -/
theorem add_state_failure_partial_mutation_witness :
    (V2Pool.init.add_state
        (V2State.new "0xCC" 18 "0xDD" 6 "0xQQ" 30000 150 200 "0xTY" 2)).1._df
      = V2Pool.init._df ∧
    (V2Pool.init.add_state
        (V2State.new "0xCC" 18 "0xDD" 6 "0xQQ" 30000 150 200 "0xTY" 2)).1.last_state
      = addStateRow (V2State.new "0xCC" 18 "0xDD" 6 "0xQQ" 30000 150 200 "0xTY" 2) :=
  add_state_failure_partial_mutation V2Pool.init
    (V2State.new "0xCC" 18 "0xDD" 6 "0xQQ" 30000 150 200 "0xTY" 2)
    PyError.typeError rfl

/-- C10: a fresh `V2Pool()` has `pool_addr`, `token0_addr`,
`token1_addr`, `token1_decimals` and `k_invar` all `None` and an empty
backing frame, while `token0_decimals` — never assigned by `__init__` —
is absent, so reading it raises `AttributeError` (and reading any
assigned attribute succeeds). -/
theorem fresh_pool_defaults_and_missing_attribute :
    V2Pool.init.pool_addr = PyVal.none ∧
    V2Pool.init.token0_addr = PyVal.none ∧
    V2Pool.init.token1_addr = PyVal.none ∧
    V2Pool.init.token1_decimals = PyVal.none ∧
    V2Pool.init.k_invar = PyVal.none ∧
    V2Pool.init._df.rows = [] ∧
    V2Pool.getattrFresh "token0_decimals" = Except.error PyError.attributeError ∧
    V2Pool.getattrFresh "pool_addr" = Except.ok () := by
  refine ⟨rfl, rfl, rfl, rfl, rfl, rfl, ?_, ?_⟩ <;>
    simp [V2Pool.getattrFresh, V2Pool.initAttrNames]

end V2Py
